import Mathlib

/-!
Shallow embedding of the barcode / GS1 decoding pipeline of `app/utils.py`
(medicineOCR).  Python dictionaries are embedded as association lists
`List (String × String)` in literal insertion order; `dict.get(k, d)`,
`dict[k] = v` and key membership become `dictGet`, `dictSet`, `dictHasKey`.
`re.search` over the five fixed GS1 patterns is embedded by the dedicated
leftmost-search functions `searchFixed` (for patterns of shape
`AI(\d{n})`), and `searchRun` (for `AI(C+)` with a character class `C`),
which scan every start position from the left, exactly as `re.search` does
for these backtracking-free patterns.  `\d` is embedded as an ASCII digit.
Filesystem and decoder effects of `scan_barcode` are embedded by an
explicit environment `ScanEnv` recording the outcome of each library call
(`Except` mirrors a Python exception carrying `str(e)`), and the returned
flag records whether the enhanced temporary image file exists after the
call.
-/

/-- Python `dict.get(k, dflt)` on a string-valued dict in insertion order. -/
def dictGet (d : List (String × String)) (k dflt : String) : String :=
  match d with
  | [] => dflt
  | (k', v) :: rest => if k' = k then v else dictGet rest k dflt

/-- Python `d[k] = v`: replace in place if the key exists, else append. -/
def dictSet (d : List (String × String)) (k v : String) : List (String × String) :=
  match d with
  | [] => [(k, v)]
  | (k', v') :: rest => if k' = k then (k', v) :: rest else (k', v') :: dictSet rest k v

/-- Python `k in d`. -/
def dictHasKey (d : List (String × String)) (k : String) : Bool :=
  match d with
  | [] => false
  | (k', _) :: rest => k' = k || dictHasKey rest k

/-- The literal six-field dict with which every parser of `utils.py` starts
(`medicine_info = ... ""` for each field). -/
def emptyMedicineInfo : List (String × String) :=
  [("medicineName", ""), ("price", ""), ("manufacturingDate", ""),
   ("expiryDate", ""), ("batchNumber", ""), ("quantity", "")]

/-- The six field keys of the canonical medicine-info record. -/
def sixFieldKeys : List String :=
  ["medicineName", "price", "manufacturingDate", "expiryDate", "batchNumber", "quantity"]

/-- Literal match of `p` against a prefix of `cs` (regex literal characters). -/
def matchLit : List Char → List Char → Bool
  | [], _ => true
  | _ :: _, [] => false
  | a :: ps, c :: cs => a = c && matchLit ps cs

/-- Regex `\d` of the patterns in `parse_gs1_barcode`, embedded as an ASCII
decimal digit. -/
def isDigitChar (c : Char) : Bool := c.isDigit

/-- Match of `\d` repeated exactly `n` times at the head of `cs`, returning the
captured digits. -/
def digitsTake (n : Nat) (cs : List Char) : Option (List Char) :=
  let t := cs.take n
  if t.length = n && t.all isDigitChar then some t else none

/-- `re.search` for a pattern `LIT(\d`^`n`^`)`: try every start position from the
left; at the first position where the literal matches and exactly `n` digits
follow, return the captured digits. -/
def searchFixed (p : List Char) (n : Nat) (cs : List Char) : Option (List Char) :=
  match cs with
  | [] => none
  | _ :: tl =>
    if matchLit p cs then
      match digitsTake n (cs.drop p.length) with
      | some v => some v
      | none => searchFixed p n tl
    else searchFixed p n tl

/-- `re.search` for a pattern `LIT([class]+)`: try every start position from
the left; at the first position where the literal matches and at least one
class character follows, return the greedily captured (maximal) run. -/
def searchRun (p : List Char) (ok : Char → Bool) (cs : List Char) : Option (List Char) :=
  match cs with
  | [] => none
  | _ :: tl =>
    if matchLit p cs then
      let run := (cs.drop p.length).takeWhile ok
      if run.isEmpty then searchRun p ok tl else some run
    else searchRun p ok tl

/-- Index of the leftmost occurrence of the literal `p` in `cs`. -/
def leftmostLit (p : List Char) (cs : List Char) : Option Nat :=
  match cs with
  | [] => if matchLit p [] then some 0 else none
  | _ :: tl => if matchLit p cs then some 0 else (leftmostLit p tl).map (· + 1)

/-- The character class of the batch and serial patterns as the source actually
compiles them: the raw strings are written with a DOUBLE backslash, so the
class in `10([^\\x1D]+)` and `21([^\\x1D]+)` excludes the four literal
characters backslash, `x`, `1`, `D` (not the GS separator U+001D). -/
def batchValueChar (c : Char) : Bool :=
  !(c = '\\' || c = 'x' || c = '1' || c = 'D')

/-- The YYMMDD → `20YY-MM-DD` conversion of the expiry branch of
`parse_gs1_barcode` (`year = "20" + value[:2]`, `month = value[2:4]`,
`day = value[4:6]`). -/
def expiryFormat (v : List Char) : String :=
  String.mk ('2' :: '0' :: v.take 2 ++ '-' :: ((v.drop 2).take 2 ++ '-' :: (v.drop 4).take 2))

/-- `parse_gs1_barcode` of `utils.py`: the five GS1 patterns are each
`re.search`-ed independently over the whole payload, in the dict-literal
order gtin, expiry, batch, serial, quantity.  The gtin arm is `pass` and the
`if`/`elif` chain has no arm for `serial`, so those two matches have no
effect on the record. -/
def parse_gs1_barcode (barcode_data : String) : List (String × String) :=
  let cs := barcode_data.data
  let mi := emptyMedicineInfo
  let _gtin := searchFixed ['0', '1'] 14 cs
  let mi := match searchFixed ['1', '7'] 6 cs with
    | some v => if v.length = 6 then dictSet mi "expiryDate" (expiryFormat v) else mi
    | none => mi
  let mi := match searchRun ['1', '0'] batchValueChar cs with
    | some v => dictSet mi "batchNumber" (String.mk v)
    | none => mi
  let _serial := searchRun ['2', '1'] batchValueChar cs
  let mi := match searchRun ['3', '0'] isDigitChar cs with
    | some v => dictSet mi "quantity" (String.mk v)
    | none => mi
  mi

/-- `get_product_info_from_upc_database`: its body calls `requests.get`, but
`requests` is never imported in `utils.py`, so the `try` block raises
`NameError` before any field is assigned; the blanket `except` prints and
falls through, returning the six-field empty dict unchanged. -/
def get_product_info_from_upc_database (_barcode_data : String) : List (String × String) :=
  emptyMedicineInfo

/-- `parse_code128_medicine_data` of `utils.py`; Python
`barcode_data.startswith('01')` is embedded as a literal match of `01`
against the head of the character list. -/
def parse_code128_medicine_data (barcode_data : String) : List (String × String) :=
  if matchLit ['0', '1'] barcode_data.data then parse_gs1_barcode barcode_data
  else emptyMedicineInfo

/-- `parse_datamatrix_medicine_data` of `utils.py`. -/
def parse_datamatrix_medicine_data (barcode_data : String) : List (String × String) :=
  if matchLit ['0', '1'] barcode_data.data then parse_gs1_barcode barcode_data
  else emptyMedicineInfo

/-- `get_medicine_info_from_barcode` of `utils.py` (the symbology dispatcher). -/
def get_medicine_info_from_barcode (barcode_data barcode_type : String) : List (String × String) :=
  if barcode_type ∈ ["EAN13", "EAN8", "UPCA", "UPCE"] then
    get_product_info_from_upc_database barcode_data
  else if barcode_type = "CODE128" then
    parse_code128_medicine_data barcode_data
  else if barcode_type = "DATAMATRIX" then
    parse_datamatrix_medicine_data barcode_data
  else
    emptyMedicineInfo

/-- One decoded symbol as returned by `pyzbar.decode`: `data` (already
utf-8 decoded) and `type`. -/
structure DecodedSymbol where
  data : String
  type : String
deriving DecidableEq, Repr

/-- Outcomes of the three effectful library steps of `scan_barcode`:
opening + decoding the original image, running
`enhance_image_for_barcode` (on success the enhanced file is created),
and opening + decoding the enhanced image.  `Except.error m` mirrors a
Python exception with `str(e) = m`. -/
structure ScanEnv where
  decodeOriginal : Except String (List DecodedSymbol)
  enhanceResult : Except String Unit
  decodeEnhanced : Except String (List DecodedSymbol)

/-- The blanket `except Exception as e` of `scan_barcode`:
`raise ValueError(f"Barcode scanning failed: ...")`. -/
def scanWrap (m : String) : String := "Barcode scanning failed: " ++ m

/-- The record literal of `scan_barcode` (its `return` statement): the six
fields read with `.get(k, "")` plus the pass-through `barcodeData` and
`barcodeType` keys. -/
def assembleRecord (medicine_info : List (String × String))
    (barcode_data barcode_type : String) : List (String × String) :=
  [("medicineName", dictGet medicine_info "medicineName" ""),
   ("price", dictGet medicine_info "price" ""),
   ("manufacturingDate", dictGet medicine_info "manufacturingDate" ""),
   ("expiryDate", dictGet medicine_info "expiryDate" ""),
   ("batchNumber", dictGet medicine_info "batchNumber" ""),
   ("quantity", dictGet medicine_info "quantity" ""),
   ("barcodeData", barcode_data),
   ("barcodeType", barcode_type)]

/-- Tail of `scan_barcode` after the decode attempts: raise
`ValueError("No barcode detected in the image")` (caught and wrapped by the
blanket `except`) when the list is empty, else dispatch on
`barcodes[0]` and assemble the record.  `fileLeft` is threaded through:
whether the enhanced temporary file exists at this point. -/
def scanFinish (barcodes : List DecodedSymbol) (fileLeft : Bool) :
    Except String (List (String × String)) × Bool :=
  match barcodes with
  | [] => (.error (scanWrap "No barcode detected in the image"), fileLeft)
  | b :: _ =>
    (.ok (assembleRecord (get_medicine_info_from_barcode b.data b.type) b.data b.type), fileLeft)

/-- `scan_barcode` of `utils.py`.  The second component records whether the
enhanced temporary image file exists after the call: it is created by a
successful `enhance_image_for_barcode` and deleted by the `os.unlink` that
follows the enhanced decode — an unlink that is skipped when opening or
decoding the enhanced image raises, because there is no `finally`. -/
def scan_barcode (env : ScanEnv) : Except String (List (String × String)) × Bool :=
  match env.decodeOriginal with
  | .error e => (.error (scanWrap e), false)
  | .ok barcodes =>
    if barcodes.isEmpty then
      match env.enhanceResult with
      | .error e => (.error (scanWrap e), false)
      | .ok _ =>
        match env.decodeEnhanced with
        | .error e => (.error (scanWrap e), true)
        | .ok barcodes2 => scanFinish barcodes2 false
    else
      scanFinish barcodes false

/-! ### Basic lemmas about the embedded matching primitives -/

theorem matchLit_append (p : List Char) :
    ∀ cs : List Char, matchLit p cs = true → cs = p ++ cs.drop p.length := by
  induction p with
  | nil => intro cs _; simp
  | cons a ps ih =>
    intro cs h
    cases cs with
    | nil => simp [matchLit] at h
    | cons c tl =>
      simp only [matchLit, Bool.and_eq_true, decide_eq_true_eq] at h
      obtain ⟨hac, hm⟩ := h
      subst hac
      simp only [List.cons_append, List.length_cons, List.drop_succ_cons]
      exact congrArg (List.cons a) (ih tl hm)

theorem digitsTake_eq_some (n : Nat) (cs v : List Char) (h : digitsTake n cs = some v) :
    v.length = n ∧ v.all isDigitChar = true ∧ cs = v ++ cs.drop n := by
  simp only [digitsTake] at h
  split at h
  · rename_i hcond
    obtain rfl : cs.take n = v := Option.some.inj h
    simp only [Bool.and_eq_true, decide_eq_true_eq] at hcond
    exact ⟨hcond.1, hcond.2, (List.take_append_drop n cs).symm⟩
  · cases h

theorem searchFixed_eq_some (p : List Char) (n : Nat) :
    ∀ (cs v : List Char), searchFixed p n cs = some v →
      ∃ i, matchLit p (cs.drop i) = true ∧
        digitsTake n (cs.drop (i + p.length)) = some v ∧
        ∀ j, j < i →
          (matchLit p (cs.drop j) && (digitsTake n (cs.drop (j + p.length))).isSome) = false := by
  intro cs
  induction cs with
  | nil => intro v h; simp [searchFixed] at h
  | cons c tl ih =>
    intro v h
    unfold searchFixed at h
    by_cases hm : matchLit p (c :: tl) = true
    · rw [if_pos hm] at h
      cases hd : digitsTake n ((c :: tl).drop p.length) with
      | some w =>
        rw [hd] at h
        obtain rfl : w = v := Option.some.inj h
        refine ⟨0, by simpa using hm, by simpa using hd, ?_⟩
        intro j hj
        exact absurd hj (Nat.not_lt_zero j)
      | none =>
        rw [hd] at h
        obtain ⟨i, h1, h2, h3⟩ := ih v h
        refine ⟨i + 1, by simpa [List.drop_succ_cons] using h1, ?_, ?_⟩
        · have harr : (i + 1) + p.length = (i + p.length) + 1 := by omega
          rw [harr, List.drop_succ_cons]
          exact h2
        · intro j hj
          cases j with
          | zero =>
            simp only [List.drop_zero, Nat.zero_add]
            simp [hd]
          | succ j' =>
            have harr : (j' + 1) + p.length = (j' + p.length) + 1 := by omega
            rw [harr, List.drop_succ_cons, List.drop_succ_cons]
            exact h3 j' (by omega)
    · rw [if_neg hm] at h
      simp only [Bool.not_eq_true] at hm
      obtain ⟨i, h1, h2, h3⟩ := ih v h
      refine ⟨i + 1, by simpa [List.drop_succ_cons] using h1, ?_, ?_⟩
      · have harr : (i + 1) + p.length = (i + p.length) + 1 := by omega
        rw [harr, List.drop_succ_cons]
        exact h2
      · intro j hj
        cases j with
        | zero =>
          simp only [List.drop_zero, Nat.zero_add]
          simp [hm]
        | succ j' =>
          have harr : (j' + 1) + p.length = (j' + p.length) + 1 := by omega
          rw [harr, List.drop_succ_cons, List.drop_succ_cons]
          exact h3 j' (by omega)

theorem searchRun_eq_some (p : List Char) (ok : Char → Bool) :
    ∀ (cs v : List Char), searchRun p ok cs = some v →
      ∃ i, matchLit p (cs.drop i) = true ∧
        v = (cs.drop (i + p.length)).takeWhile ok ∧
        v.isEmpty = false ∧
        ∀ j, j < i →
          (matchLit p (cs.drop j) && !((cs.drop (j + p.length)).takeWhile ok).isEmpty) = false := by
  intro cs
  induction cs with
  | nil => intro v h; simp [searchRun] at h
  | cons c tl ih =>
    intro v h
    unfold searchRun at h
    by_cases hm : matchLit p (c :: tl) = true
    · rw [if_pos hm] at h
      by_cases hrun : (((c :: tl).drop p.length).takeWhile ok).isEmpty = true
      · rw [if_pos hrun] at h
        obtain ⟨i, h1, h2, h3, h4⟩ := ih v h
        refine ⟨i + 1, by simpa [List.drop_succ_cons] using h1, ?_, h3, ?_⟩
        · have harr : (i + 1) + p.length = (i + p.length) + 1 := by omega
          rw [harr, List.drop_succ_cons]
          exact h2
        · intro j hj
          cases j with
          | zero =>
            simp only [List.drop_zero, Nat.zero_add]
            simp [hrun]
          | succ j' =>
            have harr : (j' + 1) + p.length = (j' + p.length) + 1 := by omega
            rw [harr, List.drop_succ_cons, List.drop_succ_cons]
            exact h4 j' (by omega)
      · rw [if_neg hrun] at h
        obtain rfl : ((c :: tl).drop p.length).takeWhile ok = v := Option.some.inj h
        refine ⟨0, by simpa using hm, by simp, ?_, ?_⟩
        · simpa using Bool.of_not_eq_true hrun
        · intro j hj
          exact absurd hj (Nat.not_lt_zero j)
    · rw [if_neg hm] at h
      simp only [Bool.not_eq_true] at hm
      obtain ⟨i, h1, h2, h3, h4⟩ := ih v h
      refine ⟨i + 1, by simpa [List.drop_succ_cons] using h1, ?_, h3, ?_⟩
      · have harr : (i + 1) + p.length = (i + p.length) + 1 := by omega
        rw [harr, List.drop_succ_cons]
        exact h2
      · intro j hj
        cases j with
        | zero =>
          simp only [List.drop_zero, Nat.zero_add]
          simp [hm]
        | succ j' =>
          have harr : (j' + 1) + p.length = (j' + p.length) + 1 := by omega
          rw [harr, List.drop_succ_cons, List.drop_succ_cons]
          exact h4 j' (by omega)

/-! ### Shape of the record produced by `parse_gs1_barcode` -/

theorem dictGet_dictSet_same (d : List (String × String)) (k v dflt : String) :
    dictGet (dictSet d k v) k dflt = v := by
  induction d with
  | nil => simp [dictSet, dictGet]
  | cons kv rest ih =>
    obtain ⟨k', v'⟩ := kv
    by_cases h : k' = k
    · simp [dictSet, dictGet, h]
    · simp [dictSet, dictGet, h, ih]

theorem dictGet_dictSet_ne (d : List (String × String)) (k v k2 dflt : String)
    (h : k ≠ k2) : dictGet (dictSet d k v) k2 dflt = dictGet d k2 dflt := by
  induction d with
  | nil => simp [dictSet, dictGet, h]
  | cons kv rest ih =>
    obtain ⟨k', v'⟩ := kv
    by_cases h' : k' = k
    · subst h'
      simp [dictSet, dictGet, h]
    · by_cases h2 : k' = k2
      · subst h2
        simp [dictSet, dictGet, h']
      · simp [dictSet, dictGet, h', h2, ih]

theorem parse_gs1_expiryDate (s : String) :
    dictGet (parse_gs1_barcode s) "expiryDate" "" =
      (match searchFixed ['1', '7'] 6 s.data with
       | some v => if v.length = 6 then expiryFormat v else ""
       | none => "") := by
  simp only [parse_gs1_barcode]
  cases searchFixed ['1', '7'] 6 s.data with
  | none =>
    cases searchRun ['1', '0'] batchValueChar s.data <;>
      cases searchRun ['3', '0'] isDigitChar s.data <;> rfl
  | some v =>
    cases searchRun ['1', '0'] batchValueChar s.data <;>
      cases searchRun ['3', '0'] isDigitChar s.data <;>
        by_cases hlen : v.length = 6 <;> simp [hlen] <;> rfl

theorem parse_gs1_batchNumber (s : String) :
    dictGet (parse_gs1_barcode s) "batchNumber" "" =
      (match searchRun ['1', '0'] batchValueChar s.data with
       | some v => String.mk v
       | none => "") := by
  simp only [parse_gs1_barcode]
  cases hsf : searchFixed ['1', '7'] 6 s.data with
  | none =>
    cases searchRun ['1', '0'] batchValueChar s.data <;>
      cases searchRun ['3', '0'] isDigitChar s.data <;> rfl
  | some v =>
    cases searchRun ['1', '0'] batchValueChar s.data <;>
      cases searchRun ['3', '0'] isDigitChar s.data <;>
        by_cases hlen : v.length = 6 <;> simp [hlen] <;> rfl

theorem parse_gs1_quantity (s : String) :
    dictGet (parse_gs1_barcode s) "quantity" "" =
      (match searchRun ['3', '0'] isDigitChar s.data with
       | some v => String.mk v
       | none => "") := by
  simp only [parse_gs1_barcode]
  cases hsf : searchFixed ['1', '7'] 6 s.data with
  | none =>
    cases searchRun ['1', '0'] batchValueChar s.data <;>
      cases searchRun ['3', '0'] isDigitChar s.data <;> rfl
  | some v =>
    cases searchRun ['1', '0'] batchValueChar s.data <;>
      cases searchRun ['3', '0'] isDigitChar s.data <;>
        by_cases hlen : v.length = 6 <;> simp [hlen] <;> rfl

theorem parse_gs1_keys (s : String) :
    (parse_gs1_barcode s).map Prod.fst = sixFieldKeys := by
  simp only [parse_gs1_barcode]
  cases searchFixed ['1', '7'] 6 s.data with
  | none =>
    cases searchRun ['1', '0'] batchValueChar s.data <;>
      cases searchRun ['3', '0'] isDigitChar s.data <;> rfl
  | some v =>
    cases searchRun ['1', '0'] batchValueChar s.data <;>
      cases searchRun ['3', '0'] isDigitChar s.data <;>
        by_cases hlen : v.length = 6 <;> simp [hlen] <;> rfl

theorem dictHasKey_of_mem_keys (d : List (String × String)) (k : String)
    (h : k ∈ d.map Prod.fst) : dictHasKey d k = true := by
  induction d with
  | nil => simp at h
  | cons kv rest ih =>
    obtain ⟨k', v'⟩ := kv
    simp only [List.map_cons, List.mem_cons] at h
    cases h with
    | inl h => simp [dictHasKey, h]
    | inr h => simp [dictHasKey, ih h]

theorem get_medicine_info_keys (barcode_data barcode_type : String) :
    (get_medicine_info_from_barcode barcode_data barcode_type).map Prod.fst = sixFieldKeys := by
  unfold get_medicine_info_from_barcode parse_code128_medicine_data
    parse_datamatrix_medicine_data get_product_info_from_upc_database
  split_ifs <;> first | rfl | exact parse_gs1_keys barcode_data

/-! ### Claim theorems -/

/-- C1: routing the CODE128 payload `0112345678901231172406151012345678` through
`get_medicine_info_from_barcode` and assembling the record yields
`expiryDate = "2024-06-15"` and `barcodeType = "CODE128"` as claimed, but
`batchNumber` is the empty string, not a string beginning `"12345678"`: the
batch pattern's character class (written with a double backslash in the raw
string) excludes the literal character `1`, which immediately follows the
`10` prefix here, so the batch regex never matches. -/
theorem C1_code128_end_to_end_eval :
    dictGet (assembleRecord
        (get_medicine_info_from_barcode "0112345678901231172406151012345678" "CODE128")
        "0112345678901231172406151012345678" "CODE128") "expiryDate" "" = "2024-06-15" ∧
    dictGet (assembleRecord
        (get_medicine_info_from_barcode "0112345678901231172406151012345678" "CODE128")
        "0112345678901231172406151012345678" "CODE128") "batchNumber" "" = "" ∧
    dictGet (assembleRecord
        (get_medicine_info_from_barcode "0112345678901231172406151012345678" "CODE128")
        "0112345678901231172406151012345678" "CODE128") "barcodeType" "" = "CODE128" := by
  decide

/-- C2: in `"1017ABC123"` the AI prefix `10` is immediately followed by a
non-empty run of characters none of which is the GS separator U+001D, yet
`parse_gs1_barcode` leaves `batchNumber` empty: the compiled character class
of `10([^\\x1D]+)` excludes the literal characters backslash, `x`, `1`, `D`,
and the character right after `10` here is `1`. -/
theorem C2_batch_prefix_eval :
    matchLit ['1', '0'] ("1017ABC123" : String).data = true ∧
    (("1017ABC123" : String).data.drop 2).isEmpty = false ∧
    (("1017ABC123" : String).data.drop 2).all (fun c => !(c = Char.ofNat 29)) = true ∧
    dictGet (parse_gs1_barcode "1017ABC123") "batchNumber" "" = "" := by
  decide

/-- C3 counterexample: when both decode attempts yield zero symbols, the error
that crosses `scan_barcode`'s interface is NOT the bare no-barcode error: the
internal `ValueError("No barcode detected in the image")` is caught by the
blanket `except` and re-raised wrapped in the `"Barcode scanning failed: "`
prefix, i.e. in the `ScanFailed(reason)` shape. -/
theorem C3_noBarcode_error_is_wrapped :
    (scan_barcode ⟨Except.ok [], Except.ok (), Except.ok []⟩).1 =
      Except.error "Barcode scanning failed: No barcode detected in the image" ∧
    ¬ ((scan_barcode ⟨Except.ok [], Except.ok (), Except.ok []⟩).1 =
      Except.error "No barcode detected in the image") := by
  refine ⟨rfl, fun hcl => ?_⟩
  have h0 : (scan_barcode ⟨Except.ok [], Except.ok (), Except.ok []⟩).1 =
      Except.error "Barcode scanning failed: No barcode detected in the image" := rfl
  rw [h0] at hcl
  exact absurd (Except.error.inj hcl) (by decide)

/-- C3 amended: when decoding the original image and decoding the enhanced
image both return zero symbols, `scan_barcode` raises the no-barcode
`ValueError` internally, but what crosses the interface is that message
wrapped by the blanket handler: `"Barcode scanning failed: No barcode
detected in the image"`, distinguishable from other failures only by the
message text, not by a distinct error kind. -/
theorem C3_amended_wrapped_crossing (env : ScanEnv)
    (h0 : env.decodeOriginal = Except.ok []) (h1 : env.enhanceResult = Except.ok ())
    (h2 : env.decodeEnhanced = Except.ok []) :
    (scan_barcode env).1 =
      Except.error ("Barcode scanning failed: " ++ "No barcode detected in the image") := by
  unfold scan_barcode
  rw [h0, h1, h2]
  rfl

/-- Witness for the amended C3 at a concrete environment. -/
theorem C3_amended_wrapped_crossing_witness :
    (scan_barcode ⟨Except.ok [], Except.ok (), Except.ok []⟩).1 =
      Except.error ("Barcode scanning failed: " ++ "No barcode detected in the image") :=
  C3_amended_wrapped_crossing ⟨Except.ok [], Except.ok (), Except.ok []⟩ rfl rfl rfl

/-- C6: for CODE128 and for DATAMATRIX the dispatcher invokes the GS1 parser
exactly when the payload starts with `"01"`, and returns the all-empty-field
record otherwise. -/
theorem C6_dispatch_gs1_iff_gtin_prefix (barcode_data : String) :
    get_medicine_info_from_barcode barcode_data "CODE128" =
      (if matchLit ['0', '1'] barcode_data.data then parse_gs1_barcode barcode_data
       else emptyMedicineInfo) ∧
    get_medicine_info_from_barcode barcode_data "DATAMATRIX" =
      (if matchLit ['0', '1'] barcode_data.data then parse_gs1_barcode barcode_data
       else emptyMedicineInfo) :=
  ⟨rfl, rfl⟩

/-- C7: for every payload and every symbology outside the six recognized
symbologies, the dispatcher returns the record with all six fields equal to
the empty string; the embedded dispatcher is a total function, so no
exception is possible. -/
theorem C7_unknown_symbology_empty (barcode_data barcode_type : String)
    (h : barcode_type ∉ (["EAN13", "EAN8", "UPCA", "UPCE", "CODE128", "DATAMATRIX"] : List String)) :
    get_medicine_info_from_barcode barcode_data barcode_type = emptyMedicineInfo ∧
    ∀ k ∈ sixFieldKeys, dictGet (get_medicine_info_from_barcode barcode_data barcode_type) k "" = "" := by
  have h1 : barcode_type ∉ (["EAN13", "EAN8", "UPCA", "UPCE"] : List String) := by
    simp only [List.mem_cons, List.not_mem_nil, or_false] at h ⊢
    tauto
  have h2 : barcode_type ≠ "CODE128" := fun he => h (by simp [he])
  have h3 : barcode_type ≠ "DATAMATRIX" := fun he => h (by simp [he])
  have hmain : get_medicine_info_from_barcode barcode_data barcode_type = emptyMedicineInfo := by
    unfold get_medicine_info_from_barcode
    rw [if_neg h1, if_neg h2, if_neg h3]
  refine ⟨hmain, ?_⟩
  intro k hk
  rw [hmain]
  fin_cases hk <;> rfl

/-- Witness for C7 at the spec's example symbology `"UNKNOWN"`. -/
theorem C7_unknown_symbology_empty_witness :
    get_medicine_info_from_barcode "0112345678901231" "UNKNOWN" = emptyMedicineInfo ∧
    dictGet (get_medicine_info_from_barcode "0112345678901231" "UNKNOWN") "medicineName" "" = "" :=
  ⟨(C7_unknown_symbology_empty "0112345678901231" "UNKNOWN" (by decide)).1,
   (C7_unknown_symbology_empty "0112345678901231" "UNKNOWN" (by decide)).2 "medicineName" (by decide)⟩

/-- C8 counterexample: if decoding (or opening) the enhanced image raises, the
`os.unlink` that follows it is skipped — there is no `finally` — so the
enhanced temporary file still exists after `scan_barcode` fails. -/
theorem C8_enhanced_file_survives_decode_error :
    ¬ ((scan_barcode ⟨Except.ok [], Except.ok (),
        Except.error "cannot identify image file"⟩).2 = false) := by
  decide

/-- C8 amended: the enhanced temporary file is deleted whenever decoding on
the enhanced image runs to completion (zero or more symbols), and survives
`scan_barcode` exactly when the retry branch was entered, enhancement
created the file, and opening or decoding the enhanced image raised. -/
theorem C8_amended_cleanup_unless_decode_raises (env : ScanEnv) :
    (scan_barcode env).2 = true ↔
      env.decodeOriginal = Except.ok [] ∧ env.enhanceResult = Except.ok () ∧
        ∃ e, env.decodeEnhanced = Except.error e := by
  obtain ⟨dO, eR, dE⟩ := env
  cases dO with
  | error e => simp [scan_barcode]
  | ok bs =>
    cases bs with
    | nil =>
      cases eR with
      | error e => simp [scan_barcode]
      | ok u =>
        cases u
        cases dE with
        | error e => simp [scan_barcode]
        | ok bs2 => cases bs2 <;> simp [scan_barcode, scanFinish]
    | cons b rest => simp [scan_barcode, scanFinish]

/-- C10 counterexample: in `"30X301"` the leftmost occurrence of `30` is at
index 0 and is followed by no digit at all, yet quantity is the non-empty
`"1"` (captured after the second `30`): `re.search` finds the leftmost
position where the whole pattern `30(\d+)` matches, not the leftmost `30`. -/
theorem C10_quantity_not_leftmost_30 :
    ¬ (dictGet (parse_gs1_barcode "30X301") "quantity" "" ≠ "" →
        leftmostLit ['3', '0'] ("30X301" : String).data = some 0 →
        dictGet (parse_gs1_barcode "30X301") "quantity" "" =
          String.mk ((("30X301" : String).data.drop (0 + 2)).takeWhile isDigitChar)) := by
  decide

/-- C4: for every payload, the `expiryDate` field of `parse_gs1_barcode` is
either empty or is `expiryFormat` (the `20YY-MM-DD` rendering) of exactly six
digit characters occurring immediately after `17` somewhere in the payload;
no other length or shape ever populates it. -/
theorem C4_expiry_shape_invariant (s : String) :
    dictGet (parse_gs1_barcode s) "expiryDate" "" = "" ∨
    ∃ v : List Char, v.length = 6 ∧ v.all isDigitChar = true ∧
      (∃ l r, s.data = l ++ ['1', '7'] ++ (v ++ r)) ∧
      dictGet (parse_gs1_barcode s) "expiryDate" "" = expiryFormat v := by
  rw [parse_gs1_expiryDate]
  cases hsf : searchFixed ['1', '7'] 6 s.data with
  | none => exact Or.inl rfl
  | some v =>
    obtain ⟨i, h1, h2, -⟩ := searchFixed_eq_some ['1', '7'] 6 s.data v hsf
    have h2' : digitsTake 6 (s.data.drop (i + 2)) = some v := h2
    obtain ⟨hlen, hdig, hsplit⟩ := digitsTake_eq_some 6 _ v h2'
    have e1 : s.data.drop i = ['1', '7'] ++ (s.data.drop i).drop 2 :=
      matchLit_append ['1', '7'] (s.data.drop i) h1
    have e2 : (s.data.drop i).drop 2 = s.data.drop (i + 2) := List.drop_drop 2 i s.data
    have hdropi : s.data.drop i = ['1', '7'] ++ (v ++ (s.data.drop (i + 2)).drop 6) := by
      rw [e1, e2]
      exact congrArg (['1', '7'] ++ ·) hsplit
    refine Or.inr ⟨v, hlen, hdig,
      ⟨s.data.take i, (s.data.drop (i + 2)).drop 6, ?_⟩, ?_⟩
    · calc s.data = s.data.take i ++ s.data.drop i := (List.take_append_drop i s.data).symm
        _ = s.data.take i ++ (['1', '7'] ++ (v ++ (s.data.drop (i + 2)).drop 6)) :=
            congrArg (s.data.take i ++ ·) hdropi
        _ = s.data.take i ++ ['1', '7'] ++ (v ++ (s.data.drop (i + 2)).drop 6) :=
            (List.append_assoc _ _ _).symm
    · show (if v.length = 6 then expiryFormat v else "") = expiryFormat v
      exact if_pos hlen

/-- C9: whenever `expiryDate` is non-empty it comes from the LEFTMOST position
at which `17` is immediately followed by six digits, anywhere in the payload
(each AI pattern is searched independently over the whole string); the
conjunct evaluates the parser on a payload whose only such position lies
inside the GTIN value. -/
theorem C9_expiry_from_leftmost_17 :
    (∀ s : String, dictGet (parse_gs1_barcode s) "expiryDate" "" ≠ "" →
      ∃ i v, matchLit ['1', '7'] (s.data.drop i) = true ∧
        digitsTake 6 (s.data.drop (i + 2)) = some v ∧
        dictGet (parse_gs1_barcode s) "expiryDate" "" = expiryFormat v ∧
        ∀ j, j < i →
          (matchLit ['1', '7'] (s.data.drop j) &&
            (digitsTake 6 (s.data.drop (j + 2))).isSome) = false) ∧
    dictGet (parse_gs1_barcode "0117121212123456") "expiryDate" "" = "2012-12-12" := by
  constructor
  · intro s hne
    rw [parse_gs1_expiryDate] at hne ⊢
    cases hsf : searchFixed ['1', '7'] 6 s.data with
    | none => rw [hsf] at hne; exact absurd rfl hne
    | some v =>
      obtain ⟨i, h1, h2, h3⟩ := searchFixed_eq_some ['1', '7'] 6 s.data v hsf
      have h2' : digitsTake 6 (s.data.drop (i + 2)) = some v := h2
      obtain ⟨hlen, -, -⟩ := digitsTake_eq_some 6 _ v h2'
      refine ⟨i, v, h1, h2', ?_, ?_⟩
      · show (if v.length = 6 then expiryFormat v else "") = expiryFormat v
        exact if_pos hlen
      · intro j hj
        exact h3 j hj
  · decide

/-- Witness for C9 at the spec's concrete payload `"17240615"`. -/
theorem C9_expiry_from_leftmost_17_witness :
    ∃ i v, matchLit ['1', '7'] (("17240615" : String).data.drop i) = true ∧
      digitsTake 6 (("17240615" : String).data.drop (i + 2)) = some v ∧
      dictGet (parse_gs1_barcode "17240615") "expiryDate" "" = expiryFormat v ∧
      ∀ j, j < i →
        (matchLit ['1', '7'] (("17240615" : String).data.drop j) &&
          (digitsTake 6 (("17240615" : String).data.drop (j + 2))).isSome) = false :=
  C9_expiry_from_leftmost_17.1 "17240615" (by decide)

/-- C10 amended: a non-empty `quantity` equals the maximal digit run after the
leftmost occurrence of `30` that is immediately followed by at least one
digit (not after the leftmost `30` outright); a `30` inside the GTIN digits
absorbs every subsequent digit, as the conjunct shows concretely. -/
theorem C10_amended_quantity_leftmost_with_digit :
    (∀ s : String, dictGet (parse_gs1_barcode s) "quantity" "" ≠ "" →
      ∃ i, matchLit ['3', '0'] (s.data.drop i) = true ∧
        ((s.data.drop (i + 2)).takeWhile isDigitChar).isEmpty = false ∧
        dictGet (parse_gs1_barcode s) "quantity" "" =
          String.mk ((s.data.drop (i + 2)).takeWhile isDigitChar) ∧
        ∀ j, j < i →
          (matchLit ['3', '0'] (s.data.drop j) &&
            !((s.data.drop (j + 2)).takeWhile isDigitChar).isEmpty) = false) ∧
    dictGet (parse_gs1_barcode "0112345678903012") "quantity" "" = "12" := by
  constructor
  · intro s hne
    rw [parse_gs1_quantity] at hne ⊢
    cases hsr : searchRun ['3', '0'] isDigitChar s.data with
    | none => rw [hsr] at hne; exact absurd rfl hne
    | some v =>
      obtain ⟨i, h1, h2, h3, h4⟩ := searchRun_eq_some ['3', '0'] isDigitChar s.data v hsr
      have h2' : v = (s.data.drop (i + 2)).takeWhile isDigitChar := h2
      refine ⟨i, h1, ?_, ?_, ?_⟩
      · rw [← h2']
        exact h3
      · show String.mk v = String.mk ((s.data.drop (i + 2)).takeWhile isDigitChar)
        exact congrArg String.mk h2'
      · intro j hj
        exact h4 j hj
  · decide

/-- Witness for the amended C10 at the concrete payload `"3042"`. -/
theorem C10_amended_quantity_witness :
    ∃ i, matchLit ['3', '0'] (("3042" : String).data.drop i) = true ∧
      ((("3042" : String).data.drop (i + 2)).takeWhile isDigitChar).isEmpty = false ∧
      dictGet (parse_gs1_barcode "3042") "quantity" "" =
        String.mk ((("3042" : String).data.drop (i + 2)).takeWhile isDigitChar) ∧
      ∀ j, j < i →
        (matchLit ['3', '0'] (("3042" : String).data.drop j) &&
          !((("3042" : String).data.drop (j + 2)).takeWhile isDigitChar).isEmpty) = false :=
  C10_amended_quantity_leftmost_with_digit.1 "3042" (by decide)

/-- C5: every record produced by the dispatcher carries all six field keys,
and every success record of `scan_barcode` carries all six field keys plus
`barcodeData` equal to the first decoded symbol's payload and `barcodeType`
equal to its symbology, verbatim. -/
theorem C5_record_always_fully_keyed :
    (∀ barcode_data barcode_type : String, ∀ k ∈ sixFieldKeys,
      dictHasKey (get_medicine_info_from_barcode barcode_data barcode_type) k = true) ∧
    (∀ (env : ScanEnv) (r : List (String × String)), (scan_barcode env).1 = Except.ok r →
      (∀ k ∈ sixFieldKeys, dictHasKey r k = true) ∧
      ∃ b : DecodedSymbol, ∃ rest : List DecodedSymbol,
        (env.decodeOriginal = Except.ok (b :: rest) ∨
          (env.decodeOriginal = Except.ok [] ∧ env.enhanceResult = Except.ok () ∧
            env.decodeEnhanced = Except.ok (b :: rest))) ∧
        r = assembleRecord (get_medicine_info_from_barcode b.data b.type) b.data b.type ∧
        dictGet r "barcodeData" "" = b.data ∧ dictGet r "barcodeType" "" = b.type) := by
  constructor
  · intro d t k hk
    exact dictHasKey_of_mem_keys _ k (by rw [get_medicine_info_keys]; exact hk)
  · intro env r hr
    obtain ⟨dO, eR, dE⟩ := env
    cases dO with
    | error e => simp [scan_barcode] at hr
    | ok bs =>
      cases bs with
      | cons b rest =>
        simp [scan_barcode, scanFinish] at hr
        subst hr
        refine ⟨?_, b, rest, Or.inl rfl, rfl, rfl, rfl⟩
        intro k hk
        fin_cases hk <;> rfl
      | nil =>
        cases eR with
        | error e => simp [scan_barcode] at hr
        | ok u =>
          cases u
          cases dE with
          | error e => simp [scan_barcode] at hr
          | ok bs2 =>
            cases bs2 with
            | nil => simp [scan_barcode, scanFinish] at hr
            | cons b rest =>
              simp [scan_barcode, scanFinish] at hr
              subst hr
              refine ⟨?_, b, rest, Or.inr ⟨rfl, rfl, rfl⟩, rfl, rfl, rfl⟩
              intro k hk
              fin_cases hk <;> rfl

/-- Witness for C5 at a concrete dispatcher call and a concrete scan. -/
theorem C5_record_always_fully_keyed_witness :
    dictHasKey (get_medicine_info_from_barcode "0112345678901231" "UNKNOWN") "price" = true ∧
    dictHasKey (assembleRecord
        (get_medicine_info_from_barcode "0112345678901231" "CODE128")
        "0112345678901231" "CODE128") "batchNumber" = true := by
  refine ⟨C5_record_always_fully_keyed.1 "0112345678901231" "UNKNOWN" "price" (by decide), ?_⟩
  exact (C5_record_always_fully_keyed.2
      ⟨Except.ok [⟨"0112345678901231", "CODE128"⟩], Except.ok (), Except.ok []⟩
      (assembleRecord (get_medicine_info_from_barcode "0112345678901231" "CODE128")
        "0112345678901231" "CODE128") rfl).1 "batchNumber" (by decide)

/-- Witness for C4 at a concrete payload. -/
theorem C4_expiry_shape_invariant_witness :
    dictGet (parse_gs1_barcode "17240615") "expiryDate" "" = "" ∨
    ∃ v : List Char, v.length = 6 ∧ v.all isDigitChar = true ∧
      (∃ l r, ("17240615" : String).data = l ++ ['1', '7'] ++ (v ++ r)) ∧
      dictGet (parse_gs1_barcode "17240615") "expiryDate" "" = expiryFormat v :=
  C4_expiry_shape_invariant "17240615"

/-- Witness for C6 at a concrete payload. -/
theorem C6_dispatch_gs1_iff_gtin_prefix_witness :
    get_medicine_info_from_barcode "0112345678901231" "CODE128" =
      (if matchLit ['0', '1'] ("0112345678901231" : String).data
       then parse_gs1_barcode "0112345678901231" else emptyMedicineInfo) ∧
    get_medicine_info_from_barcode "0112345678901231" "DATAMATRIX" =
      (if matchLit ['0', '1'] ("0112345678901231" : String).data
       then parse_gs1_barcode "0112345678901231" else emptyMedicineInfo) :=
  C6_dispatch_gs1_iff_gtin_prefix "0112345678901231"

/-- Witness for the amended C8 at a concrete environment. -/
theorem C8_amended_cleanup_witness :
    (scan_barcode ⟨Except.ok [], Except.ok (), Except.error "boom"⟩).2 = true ↔
      (ScanEnv.mk (Except.ok []) (Except.ok ()) (Except.error "boom")).decodeOriginal =
          Except.ok [] ∧
        (ScanEnv.mk (Except.ok []) (Except.ok ()) (Except.error "boom")).enhanceResult =
          Except.ok () ∧
        ∃ e, (ScanEnv.mk (Except.ok []) (Except.ok ()) (Except.error "boom")).decodeEnhanced =
          Except.error e :=
  C8_amended_cleanup_unless_decode_raises ⟨Except.ok [], Except.ok (), Except.error "boom"⟩
